import Mathlib

/-!
Verification development for the point model and flag rendering of an
IEC 60870-5-104 telecontrol point library.

Source material:
  * `src/src/enums.cpp` — flag-set string rendering (embedded directly).
  * `src/src/object/DataPoint.h` — the DataPoint class header: field
    declarations and member-function declarations. The member-function
    bodies (onReceive, the setters, the getters) live in a translation
    unit that is not part of the provided sources, so their behaviour is
    modelled from the specification where needed; each such definition is
    marked `Modelled from the spec:`.
-/

namespace C104

/-! ## Flag sets (from src/src/enums.cpp)

The C++ `Quality` and `Debug` types are bitmask enums; each is embedded
as a structure of one Bool per named bit.  The bit `Quality::Reserved`
exists in the C++ enum (its rendering branch is present but commented
out in `Quality_toString`, src/src/enums.cpp lines 99-100), so it is part
of the embedded value domain. -/

/-- Bitmask of quality descriptor bits, one Bool per named bit of the
C++ enum class `Quality`, in declared order. -/
structure Quality where
  Overflow : Bool
  Reserved : Bool
  ElapsedTimeInvalid : Bool
  Blocked : Bool
  Substituted : Bool
  NonTopical : Bool
  Invalid : Bool
deriving DecidableEq, Repr

/-- Test whether no bit at all is set, the C++ `is_none(quality)`
(bitmask compares equal to zero, all bits included). -/
def Quality.is_none (q : Quality) : Bool :=
  !q.Overflow && !q.Reserved && !q.ElapsedTimeInvalid && !q.Blocked &&
    !q.Substituted && !q.NonTopical && !q.Invalid

/-- Bitmask of debug-mode bits, one Bool per named bit of the C++ enum
class `Debug`, in declared order (src/src/enums.cpp lines 42-57). -/
structure Debug where
  Server : Bool
  Client : Bool
  Connection : Bool
  Station : Bool
  Point : Bool
  Message : Bool
  Callback : Bool
  Gil : Bool
deriving DecidableEq, Repr

/-- Test whether no bit is set, the C++ `is_none(mode)`. -/
def Debug.is_none (m : Debug) : Bool :=
  !m.Server && !m.Client && !m.Connection && !m.Station && !m.Point &&
    !m.Message && !m.Callback && !m.Gil

/-- The vector `sv` built by `Quality_toString` (src/src/enums.cpp lines
96-110): one `emplace_back` per tested bit, in program order.  The
`Quality::Reserved` test is commented out in the source, so the Reserved
bit contributes nothing here. -/
def Quality_memberList (quality : Quality) : List String :=
  (if quality.Overflow then ["Overflow"] else []) ++
  (if quality.ElapsedTimeInvalid then ["ElapsedTimeInvalid"] else []) ++
  (if quality.Blocked then ["Blocked"] else []) ++
  (if quality.Substituted then ["Substituted"] else []) ++
  (if quality.NonTopical then ["NonTopical"] else []) ++
  (if quality.Invalid then ["Invalid"] else [])

/-- All bits that are set in a Quality value, labelled, in the declared
order of the C++ enum — including the unrendered `Reserved` bit.  This is
the specification-side notion of the member list of a non-empty set, used
to compare against what `Quality_toString` actually renders. -/
def Quality_setMembers (quality : Quality) : List String :=
  (if quality.Overflow then ["Overflow"] else []) ++
  (if quality.Reserved then ["Reserved"] else []) ++
  (if quality.ElapsedTimeInvalid then ["ElapsedTimeInvalid"] else []) ++
  (if quality.Blocked then ["Blocked"] else []) ++
  (if quality.Substituted then ["Substituted"] else []) ++
  (if quality.NonTopical then ["NonTopical"] else []) ++
  (if quality.Invalid then ["Invalid"] else [])

/-- The vector built by `Debug_toString` and `Debug_toFlagString`
(src/src/enums.cpp lines 41-57 and 70-86): every declared bit is
rendered. -/
def Debug_memberList (mode : Debug) : List String :=
  (if mode.Server then ["Server"] else []) ++
  (if mode.Client then ["Client"] else []) ++
  (if mode.Connection then ["Connection"] else []) ++
  (if mode.Station then ["Station"] else []) ++
  (if mode.Point then ["Point"] else []) ++
  (if mode.Message then ["Message"] else []) ++
  (if mode.Callback then ["Callback"] else []) ++
  (if mode.Gil then ["Gil"] else [])

/-- The C++ `std::accumulate(std::next(sv.begin()), sv.end(), sv[0], plus
with separator " | ")` used by every renderer in src/src/enums.cpp.  On an
empty vector the C++ expression `sv[0]` is an out-of-bounds access
(undefined behaviour); the embedding returns `none` for that case. -/
def accumulateSep (sv : List String) : Option String :=
  match sv with
  | [] => none
  | h :: t => some (t.foldl (fun a b => a ++ " | " ++ b) h)

/-- Embedding of `Quality_toString` (src/src/enums.cpp lines 92-117).
Returns `none` exactly when the C++ function has undefined behaviour
(non-empty bitmask whose rendered member vector is empty). -/
def Quality_toString (quality : Quality) : Option String :=
  if quality.is_none then
    some "Quality set: \x7b\x7d, is_good: True"
  else
    (accumulateSep (Quality_memberList quality)).map
      (fun s => "Quality set: \x7b " ++ s ++ " \x7d, is_good: False")

/-- Embedding of `Debug_toString` (src/src/enums.cpp lines 37-64). -/
def Debug_toString (mode : Debug) : Option String :=
  if mode.is_none then
    some "Debug set: \x7b\x7d, is_none: True"
  else
    (accumulateSep (Debug_memberList mode)).map
      (fun s => "Debug set: \x7b " ++ s ++ " \x7d, is_none: False")

/-- Embedding of `Debug_toFlagString` (src/src/enums.cpp lines 66-90):
the compact variant, only the member portion, "None" when empty. -/
def Debug_toFlagString (mode : Debug) : Option String :=
  if mode.is_none then
    some "None"
  else
    accumulateSep (Debug_memberList mode)

/-- Specification-side join: the members listed in order, joined by the
separator.  Stated by structural recursion, independently of the foldl
shape the C++ accumulate uses, so that equating the two is meaningful. -/
def joinSep (sep : String) : List String → String
  | [] => ""
  | [x] => x
  | x :: y :: ys => x ++ sep ++ joinSep sep (y :: ys)


/-! ## DataPoint (from src/src/object/DataPoint.h)

The header declares the fields and member functions of `Object::DataPoint`;
the member-function bodies live in a translation unit that is not among the
provided sources.  Field types follow the header; behaviour of the member
functions is modelled from the specification and marked as such. -/

/-- Response of command handling, the C++ `CommandResponseState` returned
by `DataPoint::onReceive` (header lines 266-267); the specification names
its values Success, Failure and None. -/
inductive CommandResponseState
  | Success
  | Failure
  | None
deriving DecidableEq, Repr

/-- Command transmission mode, the C++ `CommandTransmissionMode` (header
line 116 and src/src/enums.cpp lines 342-351). -/
inductive CommandTransmissionMode
  | DIRECT_COMMAND
  | SELECT_AND_EXECUTE_COMMAND
deriving DecidableEq, Repr

/-- Modelled from the spec: the point category derived from the immutable
`typeId` (`IEC60870_5_TypeID`, header line 103) — a monitoring point
reports values station to client, a control point accepts commands.  The
type-to-category classification itself is not among the provided
sources. -/
inductive PointKind
  | monitoring
  | control
deriving DecidableEq, Repr

/-- Cause of transmission values used by this development, a fragment of
the C++ `CS101_CauseOfTransmission` (header line 319); auto-return uses
the spontaneous cause, periodic reporting the periodic cause. -/
inductive CS101_CauseOfTransmission
  | SPONTANEOUS
  | PERIODIC
  | UNKNOWN_COT
deriving DecidableEq, Repr

/-- Error raised by configuration setters, the C++
`std::invalid_argument`. -/
inductive SetterError
  | invalid_argument
deriving DecidableEq, Repr

/-- Modelled from the spec: the incoming message as consumed by
`DataPoint::onReceive` — it exposes the originator address, the value and
quality payload, and the discriminator distinguishing Select from Execute
commands.  The C++ `Remote::Message::IncomingMessage` class is not among
the provided sources. -/
structure IncomingMessage where
  originatorAddress : Nat
  isSelectCommand : Bool
  value : Int
  quality : Quality
deriving DecidableEq, Repr

/-- An outgoing transmission triggered during command handling: the
information object address of the transmitted point and the cause of
transmission handed to `DataPoint::transmit` (header lines 318-320). -/
structure TransmitEvent where
  ioa : Nat
  cause : CS101_CauseOfTransmission
deriving DecidableEq, Repr

/-- State of one data point, following the field declarations of
`Object::DataPoint` (header lines 97-140):
`is_server` (line 97), `informationObjectAddress` (line 100), the point
category derived from `type` (line 103), `relatedInformationObjectAddress`
(line 109), `relatedInformationObjectAutoReturn` (line 113), `commandMode`
(line 116), `selectedByOriginatorAddress` (line 119, 0 means no lock
holder), the value/quality information (line 122), `reportInterval_ms`
(line 126) and the `py_onReceive` callback slot (line 129).

Modelled from the spec where the header under-determines the embedding:
the related address is kept as the explicit optional the specification
prescribes and the public getter (header line 159) returns; the registered
`on_receive` callback is abstracted to the `CommandResponseState` outcome
it would return, `Option.none` meaning no callback is registered;
`updatedAt_ms` is the timestamp of the last value mutation. -/
structure DataPoint where
  is_server : Bool
  informationObjectAddress : Nat
  kind : PointKind
  relatedInformationObjectAddress : Option Nat
  relatedInformationObjectAutoReturn : Bool
  commandMode : CommandTransmissionMode
  selectedByOriginatorAddress : Nat
  value : Int
  quality : Quality
  reportInterval_ms : Nat
  updatedAt_ms : Nat
  py_onReceive : Option CommandResponseState
deriving DecidableEq, Repr

/-- Modelled from the spec: applying the value and quality carried by an
incoming command to the point, as one replacement, updating the timestamp
of the last value mutation. -/
def applyCommand (p : DataPoint) (message : IncomingMessage)
    (now_ms : Nat) : DataPoint :=
  { p with
    value := message.value
    quality := message.quality
    updatedAt_ms := now_ms }

/-- Modelled from the spec: the outcome of invoking the registered
`on_receive` callback, defaulting to Success when no callback is
registered. -/
def hookResult (p : DataPoint) : CommandResponseState :=
  p.py_onReceive.getD CommandResponseState.Success

/-- Modelled from the spec: the auto-return transmissions triggered after
a command execution with result `result` — exactly one transmission of the
related point with cause spontaneous when the result is Success, the
auto-return flag is on and a related address is configured; none
otherwise. -/
def autoReturnTransmits (p : DataPoint) (result : CommandResponseState) :
    List TransmitEvent :=
  match p.relatedInformationObjectAddress with
  | some rioa =>
      if result = CommandResponseState.Success ∧
          p.relatedInformationObjectAutoReturn = true then
        [{ ioa := rioa, cause := CS101_CauseOfTransmission.SPONTANEOUS }]
      else []
  | none => []

/-- Modelled from the spec: `DataPoint::onReceive` (header lines 266-267),
the handler of one incoming command or report addressed to this point.
Returns the response state, the updated point, and the list of
transmissions triggered on other points (auto-return).  Algorithm per the
specification, section 4.1:
1. monitoring point: apply value and quality, invoke the callback with
   its return value ignored, result Success;
2. control point in direct mode: apply the value, result is the callback
   outcome (default Success), auto-return on success;
3. control point in select-and-execute mode: a Select message takes the
   lock if it is free (compare-and-swap from 0 to the originator),
   succeeds idempotently if the same originator already holds it, and
   fails without side effects otherwise; an Execute message by the lock
   holder applies the value, invokes the callback, always resets the lock
   to 0 and auto-returns on success, while an Execute without the lock
   (lock free or held by another originator) fails without mutation. -/
def DataPoint.onReceive (p : DataPoint) (message : IncomingMessage)
    (now_ms : Nat) : CommandResponseState × DataPoint × List TransmitEvent :=
  match p.kind with
  | PointKind.monitoring =>
      (CommandResponseState.Success, applyCommand p message now_ms, [])
  | PointKind.control =>
    match p.commandMode with
    | CommandTransmissionMode.DIRECT_COMMAND =>
        let p2 := applyCommand p message now_ms
        let r := hookResult p
        (r, p2, autoReturnTransmits p2 r)
    | CommandTransmissionMode.SELECT_AND_EXECUTE_COMMAND =>
        if message.isSelectCommand then
          if p.selectedByOriginatorAddress = 0 then
            (CommandResponseState.Success,
              { p with selectedByOriginatorAddress :=
                  message.originatorAddress }, [])
          else if p.selectedByOriginatorAddress = message.originatorAddress then
            (CommandResponseState.Success, p, [])
          else
            (CommandResponseState.Failure, p, [])
        else
          if p.selectedByOriginatorAddress = 0 ∨
              p.selectedByOriginatorAddress ≠ message.originatorAddress then
            (CommandResponseState.Failure, p, [])
          else
            let p2 := applyCommand p message now_ms
            let r := hookResult p
            let p3 := { p2 with selectedByOriginatorAddress := 0 }
            (r, p3, autoReturnTransmits p3 r)

/-- Modelled from the spec: the largest valid information object address;
an IOA is a three-octet field in IEC 60870-5-104.  The C++ constant
`MAX_INFORMATION_OBJECT_ADDRESS` is declared in types.h, which is not
among the provided sources. -/
def MAX_INFORMATION_OBJECT_ADDRESS : Nat := 16777215

/-- Modelled from the spec: `DataPoint::setRelatedInformationObjectAddress`
(header lines 166-167); per its doc comment it throws
`std::invalid_argument` if the point is not a server-sided control point
or the address is an invalid IOA.  A thrown exception is modelled as
returning the error together with the unmodified point. -/
def DataPoint.setRelatedInformationObjectAddress (p : DataPoint)
    (related_io_address : Option Nat) : Option SetterError × DataPoint :=
  if p.is_server = true ∧ p.kind = PointKind.control then
    match related_io_address with
    | some a =>
        if a ≤ MAX_INFORMATION_OBJECT_ADDRESS then
          (Option.none, { p with relatedInformationObjectAddress := some a })
        else
          (some SetterError.invalid_argument, p)
    | Option.none =>
        (Option.none, { p with relatedInformationObjectAddress := Option.none })
  else
    (some SetterError.invalid_argument, p)

/-- Modelled from the spec: `DataPoint::setRelatedInformationObjectAutoReturn`
(header line 182); per its doc comment it throws `std::invalid_argument`
if the point is not a server-sided control point. -/
def DataPoint.setRelatedInformationObjectAutoReturn (p : DataPoint)
    (auto_return : Bool) : Option SetterError × DataPoint :=
  if p.is_server = true ∧ p.kind = PointKind.control then
    (Option.none, { p with relatedInformationObjectAutoReturn := auto_return })
  else
    (some SetterError.invalid_argument, p)

/-- Modelled from the spec: `DataPoint::setReportInterval_ms` (header
line 215); per its doc comment it throws `std::invalid_argument` if the
point is not a server-sided monitoring point. -/
def DataPoint.setReportInterval_ms (p : DataPoint)
    (interval_ms : Nat) : Option SetterError × DataPoint :=
  if p.is_server = true ∧ p.kind = PointKind.monitoring then
    (Option.none, { p with reportInterval_ms := interval_ms })
  else
    (some SetterError.invalid_argument, p)

/-- Embedding of the rendering of the `related_io_address` field inside
`DataPoint::toString` (header lines 328-331): a stored field value below
`MAX_INFORMATION_OBJECT_ADDRESS` is printed as its decimal numeral, every
other stored value is printed as None.  The stored field is the plain
integer `relatedInformationObjectAddress` (header line 109). -/
def DataPoint_toString_related_io_address
    (relatedInformationObjectAddress : Nat) : String :=
  if relatedInformationObjectAddress < MAX_INFORMATION_OBJECT_ADDRESS then
    Nat.repr relatedInformationObjectAddress
  else
    "None"

/-- The quality value with no bit set. -/
def Quality.good : Quality :=
  { Overflow := false, Reserved := false, ElapsedTimeInvalid := false,
    Blocked := false, Substituted := false, NonTopical := false,
    Invalid := false }

/-- The quality value whose only set bit is the unrendered Reserved bit. -/
def Quality.reservedOnly : Quality :=
  { Quality.good with Reserved := true }

/-- The quality value with the Overflow and Reserved bits set. -/
def Quality.overflowReserved : Quality :=
  { Quality.good with Overflow := true, Reserved := true }

/-- Whether handling `message` applies the command value to the point: in
direct mode every command is applied, in select-and-execute mode only an
Execute message whose originator holds the select lock.  Used to state the
auto-return property. -/
def executesCommandValue (p : DataPoint) (message : IncomingMessage) : Bool :=
  match p.commandMode with
  | CommandTransmissionMode.DIRECT_COMMAND => true
  | CommandTransmissionMode.SELECT_AND_EXECUTE_COMMAND =>
      !message.isSelectCommand &&
        decide (p.selectedByOriginatorAddress ≠ 0) &&
        decide (p.selectedByOriginatorAddress = message.originatorAddress)

end C104

namespace C104

/-- A server-sided control point in select-and-execute mode with a free
lock, a related monitoring point at address 100, auto-return enabled and
no registered callback; used as concrete input by witnesses. -/
def basePoint : DataPoint :=
  { is_server := true
    informationObjectAddress := 200
    kind := PointKind.control
    relatedInformationObjectAddress := some 100
    relatedInformationObjectAutoReturn := true
    commandMode := CommandTransmissionMode.SELECT_AND_EXECUTE_COMMAND
    selectedByOriginatorAddress := 0
    value := 0
    quality := Quality.good
    reportInterval_ms := 0
    updatedAt_ms := 0
    py_onReceive := Option.none }

/-- A Select command message by originator 5. -/
def selectMsg5 : IncomingMessage :=
  { originatorAddress := 5
    isSelectCommand := true
    value := 1
    quality := Quality.good }

/-- An Execute command message by originator 5. -/
def executeMsg5 : IncomingMessage :=
  { originatorAddress := 5
    isSelectCommand := false
    value := 1
    quality := Quality.good }

/-- An Execute command message by originator 7. -/
def executeMsg7 : IncomingMessage :=
  { originatorAddress := 7
    isSelectCommand := false
    value := 2
    quality := Quality.good }

/-- The debug value with no bit set. -/
def Debug.noneSet : Debug :=
  { Server := false, Client := false, Connection := false, Station := false,
    Point := false, Message := false, Callback := false, Gil := false }

/-- The debug value with the Server and Connection bits set: first and
third bits of the declared order, so the rendering must skip the unset
Client bit in between. -/
def Debug.serverConnection : Debug :=
  { Debug.noneSet with Server := true, Connection := true }

end C104

namespace C104

/-- C1: for a control point in select-and-execute mode, onReceive on a
Select message takes the free lock for the message originator with result
Success; when the lock is held by a different originator it returns
Failure with no side effects and the lock holder unchanged; when the lock
is already held by the same originator it returns Success idempotently. -/
theorem onReceive_select_arbitration (p : DataPoint)
    (message : IncomingMessage) (now_ms : Nat)
    (hk : p.kind = PointKind.control)
    (hm : p.commandMode = CommandTransmissionMode.SELECT_AND_EXECUTE_COMMAND)
    (hs : message.isSelectCommand = true) :
    (p.selectedByOriginatorAddress = 0 →
      (p.onReceive message now_ms).1 = CommandResponseState.Success ∧
      (p.onReceive message now_ms).2.1 =
        { p with selectedByOriginatorAddress := message.originatorAddress }) ∧
    (p.selectedByOriginatorAddress ≠ 0 →
      p.selectedByOriginatorAddress ≠ message.originatorAddress →
      (p.onReceive message now_ms).1 = CommandResponseState.Failure ∧
      (p.onReceive message now_ms).2.1 = p) ∧
    (p.selectedByOriginatorAddress ≠ 0 →
      p.selectedByOriginatorAddress = message.originatorAddress →
      (p.onReceive message now_ms).1 = CommandResponseState.Success ∧
      (p.onReceive message now_ms).2.1 = p) := by
  refine ⟨fun h0 => ?_, fun h0 hne => ?_, fun h0 heq => ?_⟩
  · simp [DataPoint.onReceive, hk, hm, hs, h0]
  · simp [DataPoint.onReceive, hk, hm, hs, h0, hne]
  · have h0m : message.originatorAddress ≠ 0 := heq ▸ h0
    simp [DataPoint.onReceive, hk, hm, hs, heq, h0m]

/-- Witness for onReceive_select_arbitration: originator 5 selects the
free lock of the sample point and the lock is set to 5. -/
theorem onReceive_select_arbitration_witness :
    (basePoint.onReceive selectMsg5 1).1 = CommandResponseState.Success ∧
    (basePoint.onReceive selectMsg5 1).2.1 =
      { basePoint with selectedByOriginatorAddress := 5 } := by
  have h := onReceive_select_arbitration basePoint selectMsg5 1 rfl rfl rfl
  exact h.1 rfl

end C104

namespace C104

/-- C2: for a control point in select-and-execute mode, onReceive on an
Execute message whose originator does not hold the lock (lock free or
held by a different originator) returns Failure, leaves the whole point —
in particular value, quality and the select lock — unchanged, and
triggers no transmission. -/
theorem onReceive_execute_without_lock (p : DataPoint)
    (message : IncomingMessage) (now_ms : Nat)
    (hk : p.kind = PointKind.control)
    (hm : p.commandMode = CommandTransmissionMode.SELECT_AND_EXECUTE_COMMAND)
    (hs : message.isSelectCommand = false)
    (h : p.selectedByOriginatorAddress = 0 ∨
         p.selectedByOriginatorAddress ≠ message.originatorAddress) :
    (p.onReceive message now_ms).1 = CommandResponseState.Failure ∧
    (p.onReceive message now_ms).2.1 = p ∧
    (p.onReceive message now_ms).2.2 = ([] : List TransmitEvent) := by
  have hstep : p.onReceive message now_ms =
      (CommandResponseState.Failure, p, []) := by
    simp only [DataPoint.onReceive, hk, hm, hs, Bool.false_eq_true, if_false]
    rw [if_pos h]
  rw [hstep]
  exact ⟨rfl, rfl, rfl⟩

/-- Witness for onReceive_execute_without_lock: an Execute by originator 7
against the sample point whose lock is held by originator 5 fails and
changes nothing. -/
theorem onReceive_execute_without_lock_witness :
    (({ basePoint with selectedByOriginatorAddress := 5 }).onReceive
        executeMsg7 1).1 = CommandResponseState.Failure ∧
    (({ basePoint with selectedByOriginatorAddress := 5 }).onReceive
        executeMsg7 1).2.1 = { basePoint with selectedByOriginatorAddress := 5 } ∧
    (({ basePoint with selectedByOriginatorAddress := 5 }).onReceive
        executeMsg7 1).2.2 = ([] : List TransmitEvent) :=
  onReceive_execute_without_lock
    { basePoint with selectedByOriginatorAddress := 5 } executeMsg7 1
    rfl rfl rfl (Or.inr (by decide))

/-- C3: for a control point in select-and-execute mode, onReceive on an
Execute message whose originator holds the lock applies the command value
and quality, returns the callback outcome (Success when no callback is
registered), and resets the select lock to 0 regardless of that outcome;
and in the two-step scenario a Select by an originator followed by an
Execute by the same originator both return Success and leave the lock
at 0. -/
theorem onReceive_execute_with_lock (p : DataPoint)
    (message : IncomingMessage) (now_ms : Nat)
    (hk : p.kind = PointKind.control)
    (hm : p.commandMode = CommandTransmissionMode.SELECT_AND_EXECUTE_COMMAND)
    (hs : message.isSelectCommand = false)
    (h0 : p.selectedByOriginatorAddress ≠ 0)
    (he : p.selectedByOriginatorAddress = message.originatorAddress) :
    (p.onReceive message now_ms).1 = hookResult p ∧
    (p.py_onReceive = Option.none →
      (p.onReceive message now_ms).1 = CommandResponseState.Success) ∧
    (p.onReceive message now_ms).2.1 =
      { p with value := message.value, quality := message.quality,
               updatedAt_ms := now_ms, selectedByOriginatorAddress := 0 } ∧
    (∀ (q : DataPoint) (sel exe : IncomingMessage) (t1 t2 : Nat),
      q.kind = PointKind.control →
      q.commandMode = CommandTransmissionMode.SELECT_AND_EXECUTE_COMMAND →
      q.selectedByOriginatorAddress = 0 →
      q.py_onReceive = Option.none →
      sel.isSelectCommand = true →
      exe.isSelectCommand = false →
      exe.originatorAddress = sel.originatorAddress →
      sel.originatorAddress ≠ 0 →
      (q.onReceive sel t1).1 = CommandResponseState.Success ∧
      ((q.onReceive sel t1).2.1.onReceive exe t2).1 =
        CommandResponseState.Success ∧
      ((q.onReceive sel t1).2.1.onReceive exe t2).2.1.selectedByOriginatorAddress
        = 0) := by
  have hnot : ¬(p.selectedByOriginatorAddress = 0 ∨
      p.selectedByOriginatorAddress ≠ message.originatorAddress) := by
    push_neg
    exact ⟨h0, he⟩
  have hstep : p.onReceive message now_ms =
      (hookResult p,
        { p with value := message.value, quality := message.quality,
                 updatedAt_ms := now_ms, selectedByOriginatorAddress := 0 },
        autoReturnTransmits
          { p with value := message.value, quality := message.quality,
                   updatedAt_ms := now_ms, selectedByOriginatorAddress := 0 }
          (hookResult p)) := by
    simp only [DataPoint.onReceive, hk, hm, hs, Bool.false_eq_true, if_false]
    rw [if_neg hnot]
    simp [applyCommand, hk, hm]
  refine ⟨by rw [hstep], ?_, by rw [hstep], ?_⟩
  · intro hnone
    rw [hstep]
    simp [hookResult, hnone]
  · intro q sel exe t1 t2 qk qm q0 qhook hsel hexe horig hne
    have hq1 : q.onReceive sel t1 =
        (CommandResponseState.Success,
          { q with selectedByOriginatorAddress := sel.originatorAddress },
          []) := by
      simp [DataPoint.onReceive, qk, qm, hsel, q0]
    rw [hq1]
    simp [DataPoint.onReceive, qk, qm, hexe, horig, hne, hookResult, qhook]

/-- Witness for onReceive_execute_with_lock: originator 5 executes while
holding the lock of the sample point; the value is applied, the result is
Success and the lock is released; the Select-then-Execute scenario is
exercised at originator 5. -/
theorem onReceive_execute_with_lock_witness :
    (({ basePoint with selectedByOriginatorAddress := 5 }).onReceive
        executeMsg5 2).1 = CommandResponseState.Success ∧
    (({ basePoint with selectedByOriginatorAddress := 5 }).onReceive
        executeMsg5 2).2.1 =
      { basePoint with value := 1, updatedAt_ms := 2 } ∧
    (basePoint.onReceive selectMsg5 1).1 = CommandResponseState.Success ∧
    ((basePoint.onReceive selectMsg5 1).2.1.onReceive executeMsg5 2).1 =
      CommandResponseState.Success ∧
    ((basePoint.onReceive selectMsg5 1).2.1.onReceive executeMsg5
        2).2.1.selectedByOriginatorAddress = 0 := by
  have h := onReceive_execute_with_lock
    { basePoint with selectedByOriginatorAddress := 5 } executeMsg5 2
    rfl rfl rfl (by decide) rfl
  have hscen := h.2.2.2 basePoint selectMsg5 executeMsg5 1 2
    rfl rfl rfl rfl rfl rfl rfl (by decide)
  exact ⟨h.2.1 rfl, by rw [h.2.2.1]; decide, hscen.1, hscen.2.1, hscen.2.2⟩

/-- C5: for a control point in direct command mode, onReceive never
modifies the select lock: the lock field after the call equals its value
before the call. -/
theorem onReceive_direct_preserves_select_lock (p : DataPoint)
    (message : IncomingMessage) (now_ms : Nat)
    (hk : p.kind = PointKind.control)
    (hm : p.commandMode = CommandTransmissionMode.DIRECT_COMMAND) :
    (p.onReceive message now_ms).2.1.selectedByOriginatorAddress =
      p.selectedByOriginatorAddress := by
  simp [DataPoint.onReceive, hk, hm, applyCommand]

/-- Witness for onReceive_direct_preserves_select_lock: a direct-mode
command on the sample point leaves the lock at its prior value 9. -/
theorem onReceive_direct_preserves_select_lock_witness :
    (({ basePoint with
          commandMode := CommandTransmissionMode.DIRECT_COMMAND,
          selectedByOriginatorAddress := 9 }).onReceive executeMsg5
        3).2.1.selectedByOriginatorAddress =
      ({ basePoint with
          commandMode := CommandTransmissionMode.DIRECT_COMMAND,
          selectedByOriginatorAddress := 9 }).selectedByOriginatorAddress :=
  onReceive_direct_preserves_select_lock
    { basePoint with
        commandMode := CommandTransmissionMode.DIRECT_COMMAND,
        selectedByOriginatorAddress := 9 } executeMsg5 3 rfl rfl

end C104

namespace C104

/-- C6: setting the related address or the auto-return flag on a point
that is not a server-sided control point, or setting the report interval
on a point that is not a server-sided monitoring point, fails with
invalid_argument and returns the point with every field unchanged. -/
theorem setters_role_type_guard (p : DataPoint) (r : Option Nat) (b : Bool)
    (ms : Nat) :
    (¬(p.is_server = true ∧ p.kind = PointKind.control) →
      p.setRelatedInformationObjectAddress r =
        (some SetterError.invalid_argument, p) ∧
      p.setRelatedInformationObjectAutoReturn b =
        (some SetterError.invalid_argument, p)) ∧
    (¬(p.is_server = true ∧ p.kind = PointKind.monitoring) →
      p.setReportInterval_ms ms = (some SetterError.invalid_argument, p)) := by
  constructor
  · intro h
    constructor
    · unfold DataPoint.setRelatedInformationObjectAddress
      rw [if_neg h]
    · unfold DataPoint.setRelatedInformationObjectAutoReturn
      rw [if_neg h]
  · intro h
    unfold DataPoint.setReportInterval_ms
    rw [if_neg h]

/-- Witness for setters_role_type_guard: on a client-sided point every one
of the three setters fails with invalid_argument and leaves the point
unchanged. -/
theorem setters_role_type_guard_witness :
    ({ basePoint with is_server := false }).setRelatedInformationObjectAddress
        (some 3) =
      (some SetterError.invalid_argument, { basePoint with is_server := false }) ∧
    ({ basePoint with is_server := false }).setRelatedInformationObjectAutoReturn
        true =
      (some SetterError.invalid_argument, { basePoint with is_server := false }) ∧
    ({ basePoint with is_server := false }).setReportInterval_ms 500 =
      (some SetterError.invalid_argument, { basePoint with is_server := false }) := by
  have h := setters_role_type_guard { basePoint with is_server := false }
    (some 3) true 500
  have h1 := h.1 (by decide)
  exact ⟨h1.1, h1.2, h.2 (by decide)⟩

/-- C4: for a control point, handling an incoming message triggers exactly
one auto-return transmission — of the related point, with cause
spontaneous — precisely when the message actually executes a command value
(direct mode, or an Execute holding the select lock), the outcome is
Success, the auto-return flag is on and a related address is configured;
in every other case it triggers no transmission at all. -/
theorem onReceive_auto_return_exactly_once (p : DataPoint)
    (message : IncomingMessage) (now_ms : Nat)
    (hk : p.kind = PointKind.control) :
    (p.onReceive message now_ms).2.2 =
      (match p.relatedInformationObjectAddress with
       | some rioa =>
           if executesCommandValue p message = true ∧
               (p.onReceive message now_ms).1 = CommandResponseState.Success ∧
               p.relatedInformationObjectAutoReturn = true then
             [{ ioa := rioa, cause := CS101_CauseOfTransmission.SPONTANEOUS }]
           else []
       | Option.none => []) := by
  cases hmode : p.commandMode with
  | DIRECT_COMMAND =>
    cases hrel : p.relatedInformationObjectAddress with
    | none =>
      simp [DataPoint.onReceive, hk, hmode, autoReturnTransmits, applyCommand,
        hrel]
    | some rioa =>
      simp [DataPoint.onReceive, hk, hmode, autoReturnTransmits, applyCommand,
        hrel, executesCommandValue]
  | SELECT_AND_EXECUTE_COMMAND =>
    by_cases hsel : message.isSelectCommand = true
    · have hts : (p.onReceive message now_ms).2.2 = [] := by
        by_cases h0 : p.selectedByOriginatorAddress = 0
        · simp [DataPoint.onReceive, hk, hmode, hsel, h0]
        · by_cases ho :
            p.selectedByOriginatorAddress = message.originatorAddress
          · have h0m : message.originatorAddress ≠ 0 := ho ▸ h0
            simp [DataPoint.onReceive, hk, hmode, hsel, ho, h0m]
          · simp [DataPoint.onReceive, hk, hmode, hsel, h0, ho]
      rw [hts]
      have hexec : executesCommandValue p message = false := by
        simp [executesCommandValue, hmode, hsel]
      cases hrel : p.relatedInformationObjectAddress <;> simp [hexec]
    · have hsel2 : message.isSelectCommand = false := by
        simpa using hsel
      by_cases hlock : p.selectedByOriginatorAddress = 0 ∨
          p.selectedByOriginatorAddress ≠ message.originatorAddress
      · have hts : p.onReceive message now_ms =
            (CommandResponseState.Failure, p, []) := by
          simp only [DataPoint.onReceive, hk, hmode, hsel2, Bool.false_eq_true,
            if_false]
          rw [if_pos hlock]
        rw [hts]
        have hexec : executesCommandValue p message = false := by
          rcases hlock with hzero | hdiff
          · simp [executesCommandValue, hmode, hsel2, hzero]
          · simp [executesCommandValue, hmode, hsel2, hdiff]
        cases hrel : p.relatedInformationObjectAddress <;> simp [hexec]
      · push_neg at hlock
        obtain ⟨h0, he⟩ := hlock
        have hstep : p.onReceive message now_ms =
            (hookResult p,
              { p with value := message.value, quality := message.quality,
                       updatedAt_ms := now_ms,
                       selectedByOriginatorAddress := 0 },
              autoReturnTransmits
                { p with value := message.value, quality := message.quality,
                         updatedAt_ms := now_ms,
                         selectedByOriginatorAddress := 0 }
                (hookResult p)) := by
          simp only [DataPoint.onReceive, hk, hmode, hsel2, Bool.false_eq_true,
            if_false]
          rw [if_neg (by push_neg; exact ⟨h0, he⟩)]
          simp [applyCommand, hk, hmode]
        rw [hstep]
        have hexec : executesCommandValue p message = true := by
          have h0m : message.originatorAddress ≠ 0 := he ▸ h0
          simp [executesCommandValue, hmode, hsel2, he, h0m]
        cases hrel : p.relatedInformationObjectAddress with
        | none => simp [autoReturnTransmits, hrel]
        | some rioa => simp [autoReturnTransmits, hrel, hexec]

end C104

namespace C104

/-- Witness for onReceive_auto_return_exactly_once: a direct-mode command
on the sample point (related address 100, auto-return on, no callback)
triggers exactly the one spontaneous transmission of point 100, and the
same command with auto-return off triggers none. -/
theorem onReceive_auto_return_exactly_once_witness :
    (({ basePoint with
          commandMode := CommandTransmissionMode.DIRECT_COMMAND }).onReceive
        executeMsg5 4).2.2 =
      [{ ioa := 100, cause := CS101_CauseOfTransmission.SPONTANEOUS }] ∧
    (({ basePoint with
          commandMode := CommandTransmissionMode.DIRECT_COMMAND,
          relatedInformationObjectAutoReturn := false }).onReceive
        executeMsg5 4).2.2 = ([] : List TransmitEvent) := by
  constructor
  · exact (onReceive_auto_return_exactly_once
      { basePoint with commandMode := CommandTransmissionMode.DIRECT_COMMAND }
      executeMsg5 4 rfl).trans (by decide)
  · exact (onReceive_auto_return_exactly_once
      { basePoint with
          commandMode := CommandTransmissionMode.DIRECT_COMMAND,
          relatedInformationObjectAutoReturn := false }
      executeMsg5 4 rfl).trans (by decide)

/-- C7 (amended): rendering of flag sets; on an empty set the canonical
empty phrase; on a set with at least one rendered bit the rendered members
in declared order joined by the separator (for Quality the Reserved bit is
never among the rendered members); for every Reserved-free non-empty
Quality value the rendered member list is indeed non-empty; and the
compact variant renders None on the empty set and only the member portion
otherwise. -/
theorem flag_rendering_contract :
    (∀ q : Quality, q.is_none = true →
      Quality_toString q = some "Quality set: \x7b\x7d, is_good: True") ∧
    (∀ q : Quality, Quality_memberList q ≠ [] →
      Quality_toString q =
        some ("Quality set: \x7b " ++ joinSep " | " (Quality_memberList q) ++
          " \x7d, is_good: False")) ∧
    (∀ q : Quality, q.Reserved = false → q.is_none = false →
      Quality_memberList q ≠ []) ∧
    (∀ m : Debug, m.is_none = true → Debug_toFlagString m = some "None") ∧
    (∀ m : Debug, m.is_none = false →
      Debug_toFlagString m = some (joinSep " | " (Debug_memberList m))) := by
  refine ⟨?_, ?_, ?_, ?_, ?_⟩
  · intro q; obtain ⟨a, b, c, d, e, f, g⟩ := q; revert a b c d e f g; decide
  · intro q; obtain ⟨a, b, c, d, e, f, g⟩ := q; revert a b c d e f g; decide
  · intro q; obtain ⟨a, b, c, d, e, f, g⟩ := q; revert a b c d e f g; decide
  · intro m; obtain ⟨a, b, c, d, e, f, g, h⟩ := m; revert a b c d e f g h
    decide
  · intro m; obtain ⟨a, b, c, d, e, f, g, h⟩ := m; revert a b c d e f g h
    decide

/-- Witness for flag_rendering_contract: each part applied at a concrete
flag value — the empty quality, a quality with Overflow and NonTopical, a
quality with only Blocked, the empty debug set and the debug set with
Server and Connection. -/
theorem flag_rendering_contract_witness :
    Quality_toString Quality.good =
      some "Quality set: \x7b\x7d, is_good: True" ∧
    Quality_toString
        { Quality.good with Overflow := true, NonTopical := true } =
      some "Quality set: \x7b Overflow | NonTopical \x7d, is_good: False" ∧
    Quality_memberList { Quality.good with Blocked := true } ≠ [] ∧
    Debug_toFlagString Debug.noneSet = some "None" ∧
    Debug_toFlagString Debug.serverConnection =
      some "Server | Connection" := by
  have h := flag_rendering_contract
  refine ⟨h.1 Quality.good rfl, ?_, ?_, h.2.2.2.1 Debug.noneSet rfl, ?_⟩
  · exact (h.2.1 { Quality.good with Overflow := true, NonTopical := true }
      (by decide)).trans (by decide)
  · exact h.2.2.1 { Quality.good with Blocked := true } rfl rfl
  · exact (h.2.2.2.2 Debug.serverConnection rfl).trans (by decide)

/-- C7 counterexample: for the quality value with the Overflow and
Reserved bits set — a non-empty set whose members in declared order are
Overflow and Reserved — the rendering lists only Overflow, not exactly the
set members. -/
theorem quality_toString_reserved_member_missing :
    Quality_setMembers Quality.overflowReserved = ["Overflow", "Reserved"] ∧
    Quality_toString Quality.overflowReserved =
      some "Quality set: \x7b Overflow \x7d, is_good: False" ∧
    Quality_toString Quality.overflowReserved ≠
      some ("Quality set: \x7b " ++
        joinSep " | " (Quality_setMembers Quality.overflowReserved) ++
        " \x7d, is_good: False") := by
  decide

/-- C9 (amended): the internal representation of the related address uses
a numeric sentinel — toString prints every stored value at or above
MAX_INFORMATION_OBJECT_ADDRESS as None (unset) and every smaller stored
value as its decimal numeral. -/
theorem related_io_address_sentinel (a : Nat) :
    (MAX_INFORMATION_OBJECT_ADDRESS ≤ a →
      DataPoint_toString_related_io_address a = "None") ∧
    (a < MAX_INFORMATION_OBJECT_ADDRESS →
      DataPoint_toString_related_io_address a = Nat.repr a) := by
  constructor
  · intro h
    unfold DataPoint_toString_related_io_address
    rw [if_neg (Nat.not_lt.mpr h)]
  · intro h
    unfold DataPoint_toString_related_io_address
    rw [if_pos h]

/-- Witness for related_io_address_sentinel at the stored values 16777215
and 100. -/
theorem related_io_address_sentinel_witness :
    DataPoint_toString_related_io_address 16777215 = "None" ∧
    DataPoint_toString_related_io_address 100 = Nat.repr 100 :=
  ⟨(related_io_address_sentinel 16777215).1 (by decide),
   (related_io_address_sentinel 100).2 (by decide)⟩

/-- C9 counterexample: the numeric stored value
MAX_INFORMATION_OBJECT_ADDRESS is interpreted as unset — toString renders
it as None — contradicting that no numeric sentinel is interpreted as
unset. -/
theorem related_io_address_numeric_sentinel_is_unset :
    MAX_INFORMATION_OBJECT_ADDRESS = 16777215 ∧
    DataPoint_toString_related_io_address MAX_INFORMATION_OBJECT_ADDRESS =
      "None" := by
  exact ⟨rfl, by decide⟩

/-- C10: the quality value whose only set bit is the unrendered Reserved
bit has is_none false, yet its rendered member vector is empty, so
Quality_toString reaches the out-of-bounds access of sv at index 0 on an
empty vector — modelled by the none result of the embedding. -/
theorem quality_toString_reserved_only_empty_access :
    Quality.is_none Quality.reservedOnly = false ∧
    Quality_memberList Quality.reservedOnly = [] ∧
    Quality_toString Quality.reservedOnly = Option.none := by
  decide

end C104
